import Mathlib

set_option autoImplicit false

/-!
Shallow embedding of the llrt build pipeline (`build.rs`) and the runtime
object cache (`src/object_cache.rs`), with theorems settling the frozen
claims about the natural-language specification.
-/

namespace LLRT

/-! ### Bytecode container codec (`build.rs`) -/

/-- Modelled from the spec: `BYTECODE_VERSION` comes from `src/bytecode_meta.rs`,
which is not part of the source excerpt; per the spec it is a fixed 4-byte
version tag (the concrete bytes are irrelevant to every claim below, only the
length 4 matters). -/
def BYTECODE_VERSION : List Nat := [108, 114, 116, 50]

/-- Modelled from the spec: flag byte `0x00` = uncompressed
(`src/bytecode_meta.rs` is not part of the source excerpt). -/
def BYTECODE_UNCOMPRESSED : Nat := 0

/-- Modelled from the spec: flag byte `0x01` = compressed
(`src/bytecode_meta.rs` is not part of the source excerpt). -/
def BYTECODE_COMPRESSED : Nat := 1

/-- The Rust truncating cast `as u32` applied to a file length
(`build.rs:215`): reduction modulo `2 ^ 32 = 4294967296`. -/
def as_u32 (n : Nat) : Nat := n % 4294967296

/-- `u32::to_le_bytes` (`build.rs:241`): the four little-endian bytes of a
32-bit value. -/
def u32_to_le_bytes (n : Nat) : List Nat :=
  [n % 256, n / 256 % 256, n / 65536 % 256, n / 16777216 % 256]

/-- Reassemble a 32-bit value from four little-endian bytes (the reading
direction of the container header field). -/
def le_bytes_to_u32 : List Nat → Nat
  | [b0, b1, b2, b3] => b0 + b1 * 256 + b2 * 65536 + b3 * 16777216
  | _ => 0

/-- The container `main` writes for one module under the `uncompressed`
feature (`build.rs:147-152`): the 4-byte version tag, the uncompressed flag
byte, then the raw bytecode payload (no size field). -/
def uncompressed_container (bytes : List Nat) : List Nat :=
  BYTECODE_VERSION ++ [BYTECODE_UNCOMPRESSED] ++ bytes

/-- The container `compress_bytecode` writes for one module
(`build.rs:215` and `build.rs:237-243`): the 4-byte version tag, the
compressed flag byte, the original file length cast `as u32` in little-endian
order, then the zstd-compressed payload. -/
def compressed_container (uncompressed_len : Nat) (payload : List Nat) : List Nat :=
  BYTECODE_VERSION ++ [BYTECODE_COMPRESSED] ++
    u32_to_le_bytes (as_u32 uncompressed_len) ++ payload

/-! ### Dictionary training (`build.rs`, `generate_compression_dictionary`) -/

/-- A source file as seen by `generate_compression_dictionary`: its path and
its on-disk size in bytes (`fs::metadata(file_path).len()`). -/
structure SrcFile where
  path : String
  size : Nat
deriving DecidableEq

/-- The training-input file arguments passed to the external `zstd --train`
command by `generate_compression_dictionary` (`build.rs:253-287`):
`cmd.args(&dictionary_filenames)` followed by `cmd.args(source_files)`.
When fewer than 5 files are present, `dictionary_filenames` is replaced by
the subset of files of size at least 1024 bytes; the intermediate `HashSet`
is modelled as a filtered list, since the paths produced by the tree walk are
distinct and only membership in the argument list matters. -/
def dictionary_training_args (source_files : List SrcFile) : List SrcFile :=
  let file_count := source_files.length
  let dictionary_filenames :=
    if file_count < 5 then source_files.filter (fun f => 1024 ≤ f.size)
    else source_files
  dictionary_filenames ++ source_files

/-! ### The compile loop of `main` (`build.rs`) -/

/-- The rquickjs `CaughtError` cases matched in `build.rs:139-143`, each
carrying the rendered text the corresponding arm produces
(`error.to_string()`, `ex.to_string()`, `format!("{:?}", value)`). -/
inductive CaughtError
  | error (s : String)
  | exception (s : String)
  | value (debugRepr : String)
deriving DecidableEq

/-- The error-message mapping of `build.rs:139-143`: every arm yields only
the rendered engine text; nothing else is added. -/
def caught_error_message : CaughtError → String
  | .error s => s
  | .exception s => s
  | .value s => s

/-- One module reaching the compile step of the loop in `main`: the derived
module name and the (opaque) engine outcome for its source, either serialized
bytecode bytes or a caught engine error. -/
structure ModuleCompile where
  module_name : String
  engine_result : Except CaughtError (List Nat)

/-- The compile loop of `main` (`build.rs:130-145`): each caught engine error
is mapped through the `build.rs:139-143` match and propagated with `?`,
aborting the whole loop; successes accumulate name-and-bytes pairs. -/
def compile_modules : List ModuleCompile → Except String (List (String × List Nat))
  | [] => Except.ok []
  | m :: rest =>
    match m.engine_result with
    | Except.error e => Except.error (caught_error_message e)
    | Except.ok bytes =>
      match compile_modules rest with
      | Except.error s => Except.error s
      | Except.ok tl => Except.ok ((m.module_name, bytes) :: tl)

/-! ### Post-loop behaviour of `main` (`build.rs`) -/

/-- Which post-loop steps `main` runs (`build.rs:185-194`): whether the
dictionary trainer is invoked (`generate_compression_dictionary`) and whether
the per-module compressor is invoked (the body of `compress_bytecode`). -/
structure PostLoopSteps where
  trains_dictionary : Bool
  compresses_modules : Bool
deriving DecidableEq

/-- The post-loop branch of `main` (`build.rs:185-194`): under the
`uncompressed` feature it calls `generate_compression_dictionary` directly
and never compresses; otherwise it calls `compress_bytecode`, which first
trains the dictionary (`build.rs:200`) and then compresses every module. -/
def main_post_loop (uncompressed : Bool) : PostLoopSteps :=
  if uncompressed then ⟨true, false⟩ else ⟨true, true⟩

/-- The bytes `main` writes for one module inside the compile loop
(`build.rs:147-155`): a flag-0 container under the `uncompressed` feature,
and the raw bytecode otherwise (later replaced wholesale by
`compress_bytecode` with a compressed container). -/
def emitted_loop_file (uncompressed : Bool) (bytes : List Nat) : List Nat :=
  if uncompressed then uncompressed_container bytes else bytes

/-! ### Object cache (`src/object_cache.rs`)

Engine values and contexts are identified by their raw pointer, a `Nat`;
pointer 0 is the null value pointer (the `int32: 0, tag: -1` slot
initializer of `object_cache.rs:155-158` has a null `u.ptr`). Reference-count
effects are recorded as a trace of the primitive operations issued through
the opaque engine interface, so that net count changes can be computed from
the trace. -/

/-- One engine reference-count operation (`JS_DupValue`, `JS_FreeValue`,
`JS_DupContext`, `JS_FreeContext`). -/
inductive EngineOp
  | dupValue (p : Nat)
  | freeValue (p : Nat)
  | dupContext (c : Nat)
  | freeContext (c : Nat)
deriving DecidableEq

/-- Net change a trace of engine operations makes to the reference count of
the value with pointer `p`. -/
def valRefDelta (p : Nat) : List EngineOp → Int
  | [] => 0
  | EngineOp.dupValue q :: rest => (if q = p then 1 else 0) + valRefDelta p rest
  | EngineOp.freeValue q :: rest => (if q = p then -1 else 0) + valRefDelta p rest
  | _ :: rest => valRefDelta p rest

/-- Net change a trace of engine operations makes to the reference count of
the context with pointer `c`. -/
def ctxRefDelta (c : Nat) : List EngineOp → Int
  | [] => 0
  | EngineOp.dupContext d :: rest => (if d = c then 1 else 0) + ctxRefDelta c rest
  | EngineOp.freeContext d :: rest => (if d = c then -1 else 0) + ctxRefDelta c rest
  | _ :: rest => ctxRefDelta c rest

/-- `ConstructorCacheKey` (`object_cache.rs:26-33`), variants in declaration
order. -/
inductive ConstructorCacheKey
  | Map
  | Set
  | Date
  | Error
  | RegExp
  | Buffer
deriving DecidableEq, Fintype

/-- `PrototypeCacheKey` (`object_cache.rs:35-42`), variants in declaration
order. -/
inductive PrototypeCacheKey
  | Object
  | Date
  | RegExp
  | Set
  | Map
  | Error
deriving DecidableEq, Fintype

/-- `FunctionCacheKey` (`object_cache.rs:44-48`), variants in declaration
order. -/
inductive FunctionCacheKey
  | ArrayFrom
  | ArrayBufferIsView
  | GetOwnPropertyDescriptor
deriving DecidableEq, Fintype

/-- The `EnumIndex` impl for `PrototypeCacheKey` (`object_cache.rs:50-54`):
`self as usize`, the declaration-order discriminant. -/
def PrototypeCacheKey.index : PrototypeCacheKey → Nat
  | .Object => 0
  | .Date => 1
  | .RegExp => 2
  | .Set => 3
  | .Map => 4
  | .Error => 5

/-- The `EnumIndex` impl for `ConstructorCacheKey` (`object_cache.rs:56-60`):
`(self as usize) + (1 << 6)`. -/
def ConstructorCacheKey.index : ConstructorCacheKey → Nat
  | .Map => 0 + 64
  | .Set => 1 + 64
  | .Date => 2 + 64
  | .Error => 3 + 64
  | .RegExp => 4 + 64
  | .Buffer => 5 + 64

/-- The `EnumIndex` impl for `FunctionCacheKey` (`object_cache.rs:62-66`):
`(self as usize) + (1 << 7)`. -/
def FunctionCacheKey.index : FunctionCacheKey → Nat
  | .ArrayFrom => 0 + 128
  | .ArrayBufferIsView => 1 + 128
  | .GetOwnPropertyDescriptor => 2 + 128

/-- A cache key of any of the three categories. -/
inductive CacheKey
  | proto (k : PrototypeCacheKey)
  | ctor (k : ConstructorCacheKey)
  | func (k : FunctionCacheKey)
deriving DecidableEq, Fintype

/-- The slot index of a key of any category, through the matching
`EnumIndex` impl. -/
def CacheKey.index : CacheKey → Nat
  | .proto k => k.index
  | .ctor k => k.index
  | .func k => k.index

/-- The `ObjectCache` struct (`object_cache.rs:15-18`): the owning context
pointer and the 256-slot `JSValue` array, each slot holding a raw value
pointer (0 = null). -/
structure CacheState where
  ctx : Nat
  cache : List Nat
deriving DecidableEq

/-- The `OBJECT_CACHE` static is modelled as `Option (Option CacheState)`:
`none` while the `OnceCell` is unset, `some none` after `clear` has taken
the cache out of the `RwLock`, and `some (some c)` while initialized. -/
abbrev ObjectCacheCell := Option (Option CacheState)

/-- `ObjectCache::get_value` (`object_cache.rs:88-94`): reads the slot at
the key's index, duplicates the handle with `JS_DupValue`, and returns the
duplicated handle. The receiver is `&self`, so no state is modified; the
returned trace holds the engine operations performed. -/
def CacheState.get_value (self : CacheState) (key : CacheKey) : Nat × List EngineOp :=
  let cached_value := self.cache.getD key.index 0
  (cached_value, [EngineOp.dupValue cached_value])

/-- `append_cache` (`object_cache.rs:97-104`): frees the wrapper context
reference with `JS_FreeContext`, forgets the wrapper with `mem::forget` (so
the value reference acquired by the lookup stays as the slot pin, and no
`JS_FreeValue` is issued), and stores the raw value pointer in the slot. -/
def append_cache (values : List Nat) (ctx : Nat) (idx : Nat) (ptr : Nat) :
    List Nat × List EngineOp :=
  (values.set idx ptr, [EngineOp.freeContext ctx])

/-- The values `init` resolves from the engine global environment
(`object_cache.rs:124-153`), each given by its raw pointer. Modelled from
the spec on the opaque engine interface: each lookup hands back an owned
wrapper holding one fresh reference to the resolved value and one reference
to the context, both released when the wrapper is dropped unless the wrapper
is forgotten. -/
structure Globals where
  globals_obj : Nat
  object_ctor : Nat
  object_proto : Nat
  get_own_property_desc_fn : Nat
  date_ctor : Nat
  date_proto : Nat
  map_ctor : Nat
  map_proto : Nat
  set_ctor : Nat
  set_proto : Nat
  reg_exp_ctor : Nat
  reg_exp_proto : Nat
  error_ctor : Nat
  error_proto : Nat
  array_ctor : Nat
  array_from_fn : Nat
  array_buffer_ctor : Nat
  array_buffer_is_view_fn : Nat
  buffer_ctor : Nat
deriving DecidableEq

/-- The engine operations of the global lookups in `init`, in source order
(`object_cache.rs:124-153`), starting with `ctx.globals()`: each lookup
acquires one reference to the resolved value and one to the context. -/
def init_lookup_trace (ctx : Nat) (g : Globals) : List EngineOp :=
  [EngineOp.dupValue g.globals_obj, EngineOp.dupContext ctx,
   EngineOp.dupValue g.object_ctor, EngineOp.dupContext ctx,
   EngineOp.dupValue g.object_proto, EngineOp.dupContext ctx,
   EngineOp.dupValue g.get_own_property_desc_fn, EngineOp.dupContext ctx,
   EngineOp.dupValue g.date_ctor, EngineOp.dupContext ctx,
   EngineOp.dupValue g.date_proto, EngineOp.dupContext ctx,
   EngineOp.dupValue g.map_ctor, EngineOp.dupContext ctx,
   EngineOp.dupValue g.map_proto, EngineOp.dupContext ctx,
   EngineOp.dupValue g.set_ctor, EngineOp.dupContext ctx,
   EngineOp.dupValue g.set_proto, EngineOp.dupContext ctx,
   EngineOp.dupValue g.reg_exp_ctor, EngineOp.dupContext ctx,
   EngineOp.dupValue g.reg_exp_proto, EngineOp.dupContext ctx,
   EngineOp.dupValue g.error_ctor, EngineOp.dupContext ctx,
   EngineOp.dupValue g.error_proto, EngineOp.dupContext ctx,
   EngineOp.dupValue g.array_ctor, EngineOp.dupContext ctx,
   EngineOp.dupValue g.array_from_fn, EngineOp.dupContext ctx,
   EngineOp.dupValue g.array_buffer_ctor, EngineOp.dupContext ctx,
   EngineOp.dupValue g.array_buffer_is_view_fn, EngineOp.dupContext ctx,
   EngineOp.dupValue g.buffer_ctor, EngineOp.dupContext ctx]

/-- The slot array `init` builds (`object_cache.rs:155-187`): the 256-slot
null initializer with the fifteen `append_cache` stores applied in source
order (constructors, then functions, then prototypes). -/
def init_values (g : Globals) : List Nat :=
  (((((((((((((((List.replicate 256 0
    ).set (ConstructorCacheKey.Map.index) g.map_ctor
    ).set (ConstructorCacheKey.Set.index) g.set_ctor
    ).set (ConstructorCacheKey.Error.index) g.error_ctor
    ).set (ConstructorCacheKey.RegExp.index) g.reg_exp_ctor
    ).set (ConstructorCacheKey.Date.index) g.date_ctor
    ).set (ConstructorCacheKey.Buffer.index) g.buffer_ctor
    ).set (FunctionCacheKey.ArrayFrom.index) g.array_from_fn
    ).set (FunctionCacheKey.GetOwnPropertyDescriptor.index) g.get_own_property_desc_fn
    ).set (FunctionCacheKey.ArrayBufferIsView.index) g.array_buffer_is_view_fn
    ).set (PrototypeCacheKey.Map.index) g.map_proto
    ).set (PrototypeCacheKey.Set.index) g.set_proto
    ).set (PrototypeCacheKey.Error.index) g.error_proto
    ).set (PrototypeCacheKey.RegExp.index) g.reg_exp_proto
    ).set (PrototypeCacheKey.Date.index) g.date_proto
    ).set (PrototypeCacheKey.Object.index) g.object_proto

/-- The drops at the end of `init` of the four wrappers that were not
forgotten (`globals`, `object_ctor`, `array_ctor`, `array_buffer_ctor`), in
reverse declaration order: each drop releases the wrapper value reference
and its context reference. -/
def init_drop_trace (ctx : Nat) (g : Globals) : List EngineOp :=
  [EngineOp.freeValue g.array_buffer_ctor, EngineOp.freeContext ctx,
   EngineOp.freeValue g.array_ctor, EngineOp.freeContext ctx,
   EngineOp.freeValue g.object_ctor, EngineOp.freeContext ctx,
   EngineOp.freeValue g.globals_obj, EngineOp.freeContext ctx]

/-- All engine operations one call of `init` performs
(`object_cache.rs:123-201`): the lookups, the fifteen `append_cache`
context releases, the `JS_DupContext` of `object_cache.rs:190`, and the
end-of-scope drops. The trace is the same whether the `OnceCell` set
succeeds or fails: on failure the rejected `ObjectCache` value is dropped,
and `ObjectCache` has no `Drop` impl, so nothing further is released. -/
def init_trace (ctx : Nat) (g : Globals) : List EngineOp :=
  init_lookup_trace ctx g ++ List.replicate 15 (EngineOp.freeContext ctx) ++
    [EngineOp.dupContext ctx] ++ init_drop_trace ctx g

/-- `init` (`object_cache.rs:123-201`): resolves the globals, builds the
slot array via `append_cache`, duplicates the context, and attempts
`OBJECT_CACHE.set`; when the cell is already set this fails with the
"ObjectCache already inited!" exception and the stored cache is untouched.
Returns the new cell state, the `Result`, and the engine-operation trace. -/
def object_cache_init (cell : ObjectCacheCell) (ctx : Nat) (g : Globals) :
    ObjectCacheCell × Except String Unit × List EngineOp :=
  match cell with
  | none => (some (some ⟨ctx, init_values g⟩), Except.ok (), init_trace ctx g)
  | some c => (some c, Except.error "ObjectCache already inited!", init_trace ctx g)

/-- `clear` (`object_cache.rs:106-121`): `OBJECT_CACHE.get().unwrap()`
panics when the cell was never set (modelled as `none`); otherwise `take()`
empties the inner option, and when a cache was present every slot whose
pointer is not null is freed once with `JS_FreeValue`, followed by one
`JS_FreeContext` of the owning context. -/
def object_cache_clear (cell : ObjectCacheCell) :
    Option (ObjectCacheCell × List EngineOp) :=
  match cell with
  | none => none
  | some none => some (some none, [])
  | some (some c) =>
      some (some none,
        (c.cache.filter (fun p => p != 0)).map EngineOp.freeValue ++
          [EngineOp.freeContext c.ctx])

/-- `n` successive calls of `clear`, threading the cell state and
concatenating the emitted engine operations; `none` when some call panics. -/
def object_cache_clears : Nat → ObjectCacheCell →
    Option (ObjectCacheCell × List EngineOp)
  | 0, cell => some (cell, [])
  | n + 1, cell =>
    match object_cache_clear cell with
    | none => none
    | some (cell2, ops) =>
      match object_cache_clears n cell2 with
      | none => none
      | some (cell3, ops2) => some (cell3, ops ++ ops2)

/-- A concrete set of resolved globals used to exercise double `init`:
nineteen distinct value pointers. -/
def exampleGlobals : Globals :=
  ⟨9, 10, 11, 12, 13, 14, 15, 16, 17, 18, 19, 20, 21, 22, 23, 24, 25, 26, 27⟩

/-- The cache produced by a first successful `init` on context 1 with
`exampleGlobals`. -/
def exampleCache : CacheState := ⟨1, init_values exampleGlobals⟩

/-- The `get` available to a caller through the cell: present only while a
cache is stored. -/
def cell_get (cell : ObjectCacheCell) (k : CacheKey) : Option (Nat × List EngineOp) :=
  match cell with
  | some (some c) => some (c.get_value k)
  | _ => none

/-- A concrete initialized cache used to witness the `clear` theorem: two
pinned slots, the rest null. -/
def exampleClearCache : CacheState := ⟨7, ((List.replicate 256 0).set 0 10).set 64 11⟩

/-- Counting a mapped `freeValue` operation in a mapped trace counts the
underlying pointer. -/
theorem count_freeValue_map (p : Nat) (l : List Nat) :
    (l.map EngineOp.freeValue).count (EngineOp.freeValue p) = l.count p := by
  induction l with
  | nil => rfl
  | cons a t ih => simp [List.count_cons, ih]

/-- A trace of `freeValue` operations contains no `freeContext`. -/
theorem count_freeContext_map (c : Nat) (l : List Nat) :
    (l.map EngineOp.freeValue).count (EngineOp.freeContext c) = 0 := by
  induction l with
  | nil => rfl
  | cons a t ih => simp [List.count_cons, ih]

/-- Filtering out the null pointer does not change the multiplicity of a
non-null pointer. -/
theorem count_filter_nonnull (p : Nat) (hp : p ≠ 0) (l : List Nat) :
    (l.filter (fun q => q != 0)).count p = l.count p := by
  induction l with
  | nil => rfl
  | cons a t ih =>
    rcases eq_or_ne a 0 with ha | ha
    · subst ha; simp [List.filter_cons, List.count_cons, hp, ih]
    · simp [List.filter_cons, List.count_cons, ha, ih]

/-- The null pointer never survives the non-null filter. -/
theorem count_zero_filter_nonnull (l : List Nat) :
    (l.filter (fun q => q != 0)).count 0 = 0 := by
  induction l with
  | nil => rfl
  | cons a t ih =>
    rcases eq_or_ne a 0 with ha | ha
    · subst ha; simp [List.filter_cons, ih]
    · simp [List.filter_cons, List.count_cons, ha, Ne.symm ha, ih]

/-- The non-null slots and the null slots together account for every slot. -/
theorem filter_nonnull_length (l : List Nat) :
    (l.filter (fun q => q != 0)).length + l.count 0 = l.length := by
  induction l with
  | nil => rfl
  | cons a t ih =>
    rcases eq_or_ne a 0 with ha | ha
    · subst ha; simp only [List.filter_cons, List.count_cons] at *
      simp at *
      omega
    · simp only [List.filter_cons, List.count_cons] at *
      simp [ha, Ne.symm ha] at *
      omega

/-! ### Theorems settling the claims -/

/-- Claim C5: every emitted container starts with the 4-byte version tag,
followed by the 1-byte flag; the uncompressed container (flag 0) continues
directly with the payload, while the compressed container (flag 1) carries
a 4-byte little-endian original-size field before the payload — so the
size field is present exactly when the flag is the compressed one. -/
theorem C5_container_layout (bytes : List Nat) (len : Nat) :
    (uncompressed_container bytes).take 4 = BYTECODE_VERSION ∧
    (uncompressed_container bytes).drop 4 = BYTECODE_UNCOMPRESSED :: bytes ∧
    (compressed_container len bytes).take 4 = BYTECODE_VERSION ∧
    (compressed_container len bytes).drop 4 =
      BYTECODE_COMPRESSED :: (u32_to_le_bytes (as_u32 len) ++ bytes) ∧
    (u32_to_le_bytes (as_u32 len)).length = 4 ∧
    BYTECODE_UNCOMPRESSED ≠ BYTECODE_COMPRESSED :=
  ⟨rfl, rfl, rfl, rfl, rfl, by decide⟩

/-- Claim C6 fails for blobs of 2 ^ 32 bytes or more: the `as u32` cast in
`compress_bytecode` truncates, so the size field of the compressed
container for a 4294967296-byte blob stores 0, not the exact length. -/
theorem C6_counterexample :
    le_bytes_to_u32 (((compressed_container 4294967296 []).drop 5).take 4) = 0 ∧
    (0 : Nat) ≠ 4294967296 :=
  ⟨rfl, by decide⟩

/-- Claim C6 (amended): for every compressed container whose uncompressed
blob is shorter than 2 ^ 32 bytes, the little-endian size field of the
header decodes to the exact byte length; for larger blobs the field stores
the length modulo 2 ^ 32 because of the `as u32` truncation. -/
theorem C6_original_size_exact (len : Nat) (payload : List Nat)
    (h : len < 4294967296) :
    le_bytes_to_u32 (((compressed_container len payload).drop 5).take 4) = len := by
  have hfield : ((compressed_container len payload).drop 5).take 4 =
      u32_to_le_bytes (as_u32 len) := by
    simp [compressed_container, BYTECODE_VERSION, BYTECODE_COMPRESSED, u32_to_le_bytes]
  rw [hfield]
  simp only [u32_to_le_bytes, le_bytes_to_u32, as_u32]
  omega

/-- Witness for `C6_original_size_exact` at a concrete container. -/
theorem C6_original_size_exact_witness :
    (300 : Nat) < 4294967296 ∧
    le_bytes_to_u32 (((compressed_container 300 [7, 7]).drop 5).take 4) = 300 :=
  ⟨by decide, C6_original_size_exact 300 [7, 7] (by decide)⟩

/-- Claim C1 names the code bug: with 3 modules, one of 512 bytes, the
sub-threshold file is still among the training-input arguments of the
`zstd --train` command, because after `cmd.args(&dictionary_filenames)` the
code appends every source file once more with `cmd.args(source_files)`,
defeating the under-5-modules size filter. -/
theorem C1_small_file_in_training_args :
    ([⟨"a.lrt", 2048⟩, ⟨"b.lrt", 1500⟩, ⟨"c.lrt", 512⟩] : List SrcFile).length < 5 ∧
    (512 : Nat) < 1024 ∧
    (⟨"c.lrt", 512⟩ : SrcFile) ∈
      dictionary_training_args [⟨"a.lrt", 2048⟩, ⟨"b.lrt", 1500⟩, ⟨"c.lrt", 512⟩] := by
  refine ⟨by decide, by decide, ?_⟩
  simp [dictionary_training_args]

/-- Claim C3 fails: the error the compile loop propagates for a failing
module is only the rendered engine message — the match of
`build.rs:139-143` never adds the derived module name, so for the failing
module named "mymodule" the name does not occur in the error at all. -/
theorem C3_counterexample :
    compile_modules
        [⟨"mymodule", Except.error (CaughtError.exception "SyntaxError: unexpected token")⟩] =
      Except.error "SyntaxError: unexpected token" ∧
    ¬ List.IsInfix "mymodule".data "SyntaxError: unexpected token".data :=
  ⟨rfl, by decide⟩

/-- Claim C3 (amended): when every module before `m` compiles and the
engine rejects `m`, the build aborts with a single consolidated error whose
message is exactly the rendered engine message; the derived module name is
not added by the build code. -/
theorem C3_abort_with_engine_message (pre : List ModuleCompile)
    (m : ModuleCompile) (rest : List ModuleCompile) (e : CaughtError)
    (hpre : ∀ p ∈ pre, ∃ b, p.engine_result = Except.ok b)
    (he : m.engine_result = Except.error e) :
    compile_modules (pre ++ m :: rest) = Except.error (caught_error_message e) := by
  induction pre with
  | nil => simp [compile_modules, he]
  | cons p ps ih =>
    obtain ⟨b, hb⟩ := hpre p (by simp)
    have hrest : ∀ q ∈ ps, ∃ c, q.engine_result = Except.ok c :=
      fun q hq => hpre q (by simp [hq])
    simp [compile_modules, hb, ih hrest]

/-- Witness for `C3_abort_with_engine_message` on a concrete build run. -/
theorem C3_abort_with_engine_message_witness :
    (∀ p ∈ ([⟨"ok", Except.ok [1]⟩] : List ModuleCompile),
      ∃ b, p.engine_result = Except.ok b) ∧
    (⟨"bad", Except.error (CaughtError.error "boom")⟩ : ModuleCompile).engine_result =
      Except.error (CaughtError.error "boom") ∧
    compile_modules
        ([⟨"ok", Except.ok [1]⟩] ++ ⟨"bad", Except.error (CaughtError.error "boom")⟩ :: []) =
      Except.error "boom" :=
  ⟨fun p hp => ⟨[1], by rw [List.mem_singleton] at hp; rw [hp]⟩, rfl,
    C3_abort_with_engine_message [⟨"ok", Except.ok [1]⟩]
      ⟨"bad", Except.error (CaughtError.error "boom")⟩ [] (CaughtError.error "boom")
      (fun p hp => ⟨[1], by rw [List.mem_singleton] at hp; rw [hp]⟩) rfl⟩

/-- Claim C4 fails: under the `uncompressed` toggle the post-loop branch of
`main` still invokes the dictionary trainer
(`generate_compression_dictionary`), so the compression pipeline is not
skipped entirely. -/
theorem C4_counterexample : (main_post_loop true).trains_dictionary = true := rfl

/-- Claim C4 (amended): under the `uncompressed` toggle, per-module
compression is skipped and every emitted container starts with the version
tag followed by flag byte 0, but dictionary training still runs. -/
theorem C4_uncompressed_containers (bytes : List Nat) :
    (main_post_loop true).compresses_modules = false ∧
    (main_post_loop true).trains_dictionary = true ∧
    (emitted_loop_file true bytes).take 5 = BYTECODE_VERSION ++ [BYTECODE_UNCOMPRESSED] ∧
    (emitted_loop_file true bytes)[4]? = some 0 := by
  refine ⟨rfl, rfl, rfl, ?_⟩
  simp [emitted_loop_file, uncompressed_container, BYTECODE_VERSION, BYTECODE_UNCOMPRESSED]

/-- Claim C7: every key of each category has an in-bounds slot index
(below 256); prototype keys start at 0 and stay below 64, constructor keys
start at 64 and stay below 128, function keys start at 128 and stay below
256 — so the three index ranges are pairwise disjoint. -/
theorem C7_index_layout :
    (∀ k : CacheKey, k.index < 256) ∧
    PrototypeCacheKey.Object.index = 0 ∧
    ConstructorCacheKey.Map.index = 64 ∧
    FunctionCacheKey.ArrayFrom.index = 128 ∧
    (∀ p : PrototypeCacheKey, p.index < 64) ∧
    (∀ c : ConstructorCacheKey, 64 ≤ c.index ∧ c.index < 128) ∧
    (∀ f : FunctionCacheKey, 128 ≤ f.index ∧ f.index < 256) ∧
    (∀ (p : PrototypeCacheKey) (c : ConstructorCacheKey), p.index ≠ c.index) ∧
    (∀ (p : PrototypeCacheKey) (f : FunctionCacheKey), p.index ≠ f.index) ∧
    (∀ (c : ConstructorCacheKey) (f : FunctionCacheKey), c.index ≠ f.index) := by
  decide

/-- Claim C8: on any cache and key, `get_value` hands back exactly the
stored slot pointer, with a trace that duplicates that handle once (net
reference-count change +1 for the returned handle) and releases no value
and no context — the slot and its pinning reference stay untouched, the
receiver being read-only. -/
theorem C8_get_duplicates (st : CacheState) (k : CacheKey) :
    (st.get_value k).1 = st.cache.getD k.index 0 ∧
    (st.get_value k).2 = [EngineOp.dupValue ((st.get_value k).1)] ∧
    valRefDelta ((st.get_value k).1) ((st.get_value k).2) = 1 ∧
    (∀ p, EngineOp.freeValue p ∉ (st.get_value k).2) ∧
    (∀ c, EngineOp.freeContext c ∉ (st.get_value k).2) := by
  refine ⟨rfl, rfl, ?_, ?_, ?_⟩ <;> simp [CacheState.get_value, valRefDelta]

/-- Claim C10: once the cell is in the cleared state (`some none`), any
number of further `clear` calls succeeds without panic, emits no engine
operation, and leaves the state cleared. -/
theorem C10_clear_after_clear (n : Nat) :
    object_cache_clears n (some none) = some (some none, []) := by
  induction n with
  | zero => rfl
  | succ n ih => simp [object_cache_clears, object_cache_clear, ih]

/-- Claim C2 fails on its no-changes part: on the concrete initialized
cell, a second `init` does fail with the "already inited" error and leaves
the stored cache untouched, but the engine operations of the failed call
leave the context reference count one higher and the reference count of a
cached-value lookup (pointer 15, the Map constructor) one higher, because
the rejected `ObjectCache` value is dropped without releasing anything. -/
theorem C2_counterexample :
    (object_cache_init (some (some exampleCache)) 1 exampleGlobals).1 =
      some (some exampleCache) ∧
    (object_cache_init (some (some exampleCache)) 1 exampleGlobals).2.1 =
      Except.error "ObjectCache already inited!" ∧
    ctxRefDelta 1 (object_cache_init (some (some exampleCache)) 1 exampleGlobals).2.2 ≠ 0 ∧
    valRefDelta 15 (object_cache_init (some (some exampleCache)) 1 exampleGlobals).2.2 ≠ 0 :=
  ⟨rfl, rfl, by decide, by decide⟩

/-- Claim C2 (amended): a second `init` on an initialized cell fails with
the "ObjectCache already inited!" error and leaves the cell — hence every
slot, and every subsequent `get` — unchanged; but the call is not
change-free: its engine-operation trace has a net context reference-count
increase of one, since the `JS_DupContext` taken for the rejected cache is
never released. -/
theorem C2_second_init_fails (cs : CacheState) (ctx : Nat) (g : Globals) :
    (object_cache_init (some (some cs)) ctx g).1 = some (some cs) ∧
    (object_cache_init (some (some cs)) ctx g).2.1 =
      Except.error "ObjectCache already inited!" ∧
    (∀ k : CacheKey,
      cell_get (object_cache_init (some (some cs)) ctx g).1 k = some (cs.get_value k)) ∧
    ctxRefDelta ctx (object_cache_init (some (some cs)) ctx g).2.2 = 1 := by
  refine ⟨rfl, rfl, fun k => rfl, ?_⟩
  simp [object_cache_init, init_trace, init_lookup_trace, init_drop_trace,
    List.replicate, ctxRefDelta]

/-- Claim C9: on an initialized cache with its 256 slots, `clear` succeeds,
the cell becomes cleared, every non-null slot pointer is released exactly
as often as it occurs among the slots, the null pointer is never released,
the context reference is released exactly once — as the final operation —
and the trace length shows each of the 256 slots was visited once. -/
theorem C9_clear_releases (c : CacheState) (h : c.cache.length = 256) :
    ∃ ops : List EngineOp,
      object_cache_clear (some (some c)) = some (some none, ops) ∧
      (∀ p : Nat, p ≠ 0 → ops.count (EngineOp.freeValue p) = c.cache.count p) ∧
      ops.count (EngineOp.freeValue 0) = 0 ∧
      ops.count (EngineOp.freeContext c.ctx) = 1 ∧
      ops.getLast? = some (EngineOp.freeContext c.ctx) ∧
      ops.length + c.cache.count 0 = 257 := by
  refine ⟨(c.cache.filter (fun p => p != 0)).map EngineOp.freeValue ++
      [EngineOp.freeContext c.ctx], rfl, ?_, ?_, ?_, ?_, ?_⟩
  · intro p hp
    rw [List.count_append, count_freeValue_map, count_filter_nonnull p hp]
    simp [List.count_cons]
  · rw [List.count_append, count_freeValue_map, count_zero_filter_nonnull]
    simp [List.count_cons]
  · rw [List.count_append, count_freeContext_map]
    simp [List.count_cons]
  · exact List.getLast?_concat _
  · have h2 := filter_nonnull_length c.cache
    rw [h] at h2
    simp only [List.length_append, List.length_map, List.length_singleton]
    omega

/-- Witness for `C9_clear_releases` on a concrete initialized cache. -/
theorem C9_clear_releases_witness :
    exampleClearCache.cache.length = 256 ∧
    (∃ ops : List EngineOp,
      object_cache_clear (some (some exampleClearCache)) = some (some none, ops) ∧
      (∀ p : Nat, p ≠ 0 →
        ops.count (EngineOp.freeValue p) = exampleClearCache.cache.count p) ∧
      ops.count (EngineOp.freeValue 0) = 0 ∧
      ops.count (EngineOp.freeContext exampleClearCache.ctx) = 1 ∧
      ops.getLast? = some (EngineOp.freeContext exampleClearCache.ctx) ∧
      ops.length + exampleClearCache.cache.count 0 = 257) :=
  ⟨by simp only [exampleClearCache, List.length_set, List.length_replicate],
   C9_clear_releases exampleClearCache
     (by simp only [exampleClearCache, List.length_set, List.length_replicate])⟩

end LLRT
